import Mathlib

/-!
# Shallow embedding of the binance-bot CLI scripts

This file embeds the order-submission scripts of the repository
(`market_orders.py`, `limit_orders.py`, `advanced/stop_limit.py`,
`advanced/oco.py` under `sanket_binance_bot/src/`, and the legacy
top-level `src/market_orders.py`, `src/limit_orders.py`) and proves
properties of the validators, the placement functions and the CLI
entry points.

Modelling conventions:
* A Python string that the code feeds to `float(...)` is modelled by the
  pair of its raw text and its parse result (`PyNumStr`): `val = some q`
  when `float` returns the number `q`, `val = none` when `float` raises
  `ValueError`.  Where only the parse result matters (the validators),
  the field is just an `Option ℚ`.  Numbers are modelled by rationals.
* Python's `str.upper()` is modelled by `pyUpper` (its ASCII behaviour,
  the one the scripts rely on).
* The vendor client is modelled by a record of the responses the
  exchange would give to each request the function can make; every
  request actually issued is recorded in a trace of `ExchangeCall`s.
* A raised exception is an `Except.error` carrying a `PyExc`, whose
  `kind` distinguishes `BinanceAPIException`, `BinanceOrderException`
  and any other exception (e.g. `ValueError`, network errors).
-/

namespace BinanceBot

/-- Python's `str.upper()` on one ASCII character: `'a'..'z'` is mapped
to `'A'..'Z'`, everything else is unchanged. -/
def pyUpperChar (c : Char) : Char :=
  if 97 ≤ c.toNat ∧ c.toNat ≤ 122 then Char.ofNat (c.toNat - 32) else c

/-- Python's `str.upper()` (restricted to its ASCII behaviour, which is
all the scripts rely on). -/
def pyUpper (s : String) : String := ⟨s.data.map pyUpperChar⟩

example : pyUpper "btcusdt" = "BTCUSDT" := by decide

example : pyUpper "Sell" = "SELL" := by decide

/-- Kind of a Python exception, as distinguished by the `except` clauses
of the scripts: `BinanceAPIException`, `BinanceOrderException`, or any
other exception. -/
inductive PyExcKind where
  | api
  | order
  | other
deriving DecidableEq, Repr

/-- A Python exception value: its kind and its message. -/
structure PyExc where
  kind : PyExcKind
  msg : String
deriving DecidableEq, Repr

/-- `ValueError` raised by `float(...)` on a non-numeric string. -/
def valueError : PyExc := ⟨PyExcKind.other, "ValueError"⟩

/-- The fields of an exchange order-placement response that the scripts
read (`order['orderId']`, `order['price']`, `order['stopPrice']`). -/
structure Order where
  orderId : Nat
  price : String
  stopPrice : String
deriving DecidableEq, Repr

/-- A Python string argument together with the result of `float(...)`
on it: `val = some q` when it parses to `q`, `val = none` when `float`
raises `ValueError`. -/
structure PyNumStr where
  raw : String
  val : Option ℚ
deriving DecidableEq, Repr

/-- One request issued to the exchange, with the exact arguments the
scripts pass to the vendor client. -/
inductive ExchangeCall where
  | ticker (symbol : String)
  | createOrder (symbol side otype quantity : String)
      (price stopPrice timeInForce : Option String)
  | cancelOrder (symbol : String) (orderId : Nat)
  | openOrders (symbol : Option String)
  | account
  | accountBalance
deriving DecidableEq, Repr

/-- `true` exactly on cancellation requests. -/
def ExchangeCall.isCancel : ExchangeCall → Bool
  | ExchangeCall.cancelOrder _ _ => true
  | _ => false

/-! ## Validation error messages (verbatim from the scripts) -/

def symbolErr : String := "Symbol must be at least 6 characters (e.g., BTCUSDT)"
def sideErr : String := "Side must be either BUY or SELL"
def qtyPosErr : String := "Quantity must be greater than 0"
def qtyNumErr : String := "Quantity must be a valid number"
def pricePosErr : String := "Price must be greater than 0"
def priceNumErr : String := "Price must be a valid number"
def limitPosErr : String := "Limit price must be greater than 0"
def limitNumErr : String := "Limit price must be a valid number"
def stopPosErr : String := "Stop price must be greater than 0"
def stopNumErr : String := "Stop price must be a valid number"
def stopLimitPosErr : String := "Stop limit price must be greater than 0"
def stopLimitNumErr : String := "Stop limit price must be a valid number"
def sellOcoLimitErr : String :=
  "For SELL OCO: limit price should be > stop price (profit taking above current, stop loss below)"
def sellOcoStopLimitErr : String := "For SELL OCO: stop limit price should be <= stop price"
def buyOcoLimitErr : String :=
  "For BUY OCO: limit price should be < stop price (buy below current, stop loss above)"
def buyOcoStopLimitErr : String := "For BUY OCO: stop limit price should be >= stop price"
def sellStopRelErr : String :=
  "For SELL orders: stop price should be >= limit price (stop-loss scenario)"
def buyStopRelErr : String :=
  "For BUY orders: stop price should be >= limit price (stop-buy scenario)"

/-! ## Shared validation checks

Each script repeats the same symbol / side / numeric-field checks; the
helpers below are the common translation of those repeated blocks. -/

/-- `if not symbol or len(symbol) < 6: errors.append(...)`. -/
def checkSymbol (symbol : String) : List String :=
  if symbol = "" ∨ symbol.length < 6 then [symbolErr] else []

/-- `if side.upper() not in ['BUY', 'SELL']: errors.append(...)`. -/
def checkSide (side : String) : List String :=
  if pyUpper side = "BUY" ∨ pyUpper side = "SELL" then [] else [sideErr]

/-- The `try: x = float(field); if x <= 0: append(posMsg)
except ValueError: append(numMsg)` block common to all numeric fields. -/
def numFieldErrors (v : Option ℚ) (posMsg numMsg : String) : List String :=
  match v with
  | some q => if q ≤ 0 then [posMsg] else []
  | none => [numMsg]

end BinanceBot

namespace BinanceBot.MarketOrders

/-- `validate_inputs` of `sanket_binance_bot/src/market_orders.py`. -/
def validate_inputs (symbol side : String) (quantity : Option ℚ) : List String :=
  checkSymbol symbol ++ checkSide side ++ numFieldErrors quantity qtyPosErr qtyNumErr

end BinanceBot.MarketOrders

namespace BinanceBot.LimitOrders

/-- `validate_inputs` of `sanket_binance_bot/src/limit_orders.py`. -/
def validate_inputs (symbol side : String) (quantity price : Option ℚ) : List String :=
  checkSymbol symbol ++ checkSide side
    ++ numFieldErrors quantity qtyPosErr qtyNumErr
    ++ numFieldErrors price pricePosErr priceNumErr

end BinanceBot.LimitOrders

namespace BinanceBot.StopLimit

/-- The relationship block of `validate_inputs` in
`sanket_binance_bot/src/advanced/stop_limit.py`: it re-parses
`stop_price` then `limit_price`, and a `ValueError` from either skips
the whole block (`except ValueError: pass`), so the checks run only
when both parse. -/
def relationshipErrors (side : String) (stop_price limit_price : Option ℚ) : List String :=
  match stop_price, limit_price with
  | some s, some l =>
      if pyUpper side = "SELL" then
        if s < l then [sellStopRelErr] else []
      else
        if s < l then [buyStopRelErr] else []
  | _, _ => []

/-- `validate_inputs` of `sanket_binance_bot/src/advanced/stop_limit.py`. -/
def validate_inputs (symbol side : String)
    (quantity stop_price limit_price : Option ℚ) : List String :=
  checkSymbol symbol ++ checkSide side
    ++ numFieldErrors quantity qtyPosErr qtyNumErr
    ++ numFieldErrors stop_price stopPosErr stopNumErr
    ++ numFieldErrors limit_price limitPosErr limitNumErr
    ++ relationshipErrors side stop_price limit_price

end BinanceBot.StopLimit

namespace BinanceBot.Oco

/-- The OCO-relationship block of `validate_inputs` in
`sanket_binance_bot/src/advanced/oco.py`: it re-parses `limit_price`,
`stop_price`, `stop_limit_price`, and a `ValueError` from any of them
skips the whole block (`except ValueError: pass`), so the checks run
only when all three parse.  Any side other than SELL takes the BUY
branch (`else:  # BUY`). -/
def relationshipErrors (side : String)
    (limit_price stop_price stop_limit_price : Option ℚ) : List String :=
  match limit_price, stop_price, stop_limit_price with
  | some l, some s, some sl =>
      if pyUpper side = "SELL" then
        (if l ≤ s then [sellOcoLimitErr] else [])
          ++ (if s < sl then [sellOcoStopLimitErr] else [])
      else
        (if s ≤ l then [buyOcoLimitErr] else [])
          ++ (if sl < s then [buyOcoStopLimitErr] else [])
  | _, _, _ => []

/-- `validate_inputs` of `sanket_binance_bot/src/advanced/oco.py`. -/
def validate_inputs (symbol side : String)
    (quantity limit_price stop_price stop_limit_price : Option ℚ) : List String :=
  checkSymbol symbol ++ checkSide side
    ++ numFieldErrors quantity qtyPosErr qtyNumErr
    ++ numFieldErrors limit_price limitPosErr limitNumErr
    ++ numFieldErrors stop_price stopPosErr stopNumErr
    ++ numFieldErrors stop_limit_price stopLimitPosErr stopLimitNumErr
    ++ relationshipErrors side limit_price stop_price stop_limit_price

end BinanceBot.Oco

namespace BinanceBot

/-- The price a call to `get_current_price` produces: `float(ticker['price'])`
on success, `None` when the request (or the parse) raises. -/
def tickerPrice (r : Except PyExc ℚ) : Option ℚ :=
  match r with
  | Except.ok p => some p
  | Except.error _ => none

/-- Python truthiness of the optional current price: `None` and `0.0`
are falsy (`if current_price:`). -/
def priceTruthy (p : Option ℚ) : Bool :=
  match p with
  | some q => decide (q ≠ 0)
  | none => false

end BinanceBot

namespace BinanceBot.Oco

/-- Responses the exchange gives to the requests `place_oco_order` can
issue.  `cancelResp` is indexed by the order id being cancelled; the
code only logs its outcome, so the field exists to state that the run
does not depend on it. -/
structure OcoClient where
  tickerResp : Except PyExc ℚ
  limitOrderResp : Except PyExc Order
  stopOrderResp : Except PyExc Order
  cancelResp : Nat → Except PyExc Unit

/-- `get_current_price` of `advanced/oco.py` (the same function appears
verbatim in `limit_orders.py` and `advanced/stop_limit.py`): one ticker
request with the uppercased symbol; any exception is caught and `None`
is returned. -/
def get_current_price (c : OcoClient) (symbol : String) :
    List ExchangeCall × Option ℚ :=
  ([ExchangeCall.ticker (pyUpper symbol)], tickerPrice c.tickerResp)

/-- Whether the reference-diff block of `place_oco_order` raises
`ValueError`: it runs only when the fetched price is truthy, and then
`float()`s the three price strings, so an unparseable price string
raises there. -/
def diffBlockRaises (c : OcoClient) (limit_price stop_price stop_limit_price : PyNumStr) :
    Bool :=
  priceTruthy (tickerPrice c.tickerResp)
    && (limit_price.val.isNone || stop_price.val.isNone || stop_limit_price.val.isNone)

deriving instance DecidableEq for Except

/-- Outcome of one run of `place_oco_order`: the requests issued, in
order, and either the list `orders` that is returned or the exception
that propagates to the caller. -/
structure OcoRun where
  calls : List ExchangeCall
  result : Except PyExc (List Order)
deriving DecidableEq

/-- `place_oco_order` of `advanced/oco.py`.

Control flow of the source: a ticker request (inside
`get_current_price`, which swallows its own failures); the reference
diffs (which re-`float()` the price strings when the price is truthy);
the LIMIT leg; the STOP leg.  A `BinanceAPIException` lands in a
handler that cancels every order in `orders` (each cancellation's own
failure is caught bare and only logged) and re-raises; a
`BinanceOrderException` or any other exception is logged and re-raised
with no cancellation. -/
def place_oco_order (c : OcoClient) (symbol side : String)
    (quantity limit_price stop_price stop_limit_price : PyNumStr) : OcoRun :=
  let tickerCall := ExchangeCall.ticker (pyUpper symbol)
  let limitCall := ExchangeCall.createOrder (pyUpper symbol) (pyUpper side) "LIMIT"
    quantity.raw (some limit_price.raw) none (some "GTC")
  let stopCall := ExchangeCall.createOrder (pyUpper symbol) (pyUpper side) "STOP"
    quantity.raw (some stop_limit_price.raw) (some stop_price.raw) (some "GTC")
  if diffBlockRaises c limit_price stop_price stop_limit_price then
    { calls := [tickerCall], result := Except.error valueError }
  else
    match c.limitOrderResp with
    | Except.error e =>
        -- first leg failed: `orders` is empty, so even the
        -- `BinanceAPIException` handler attempts no cancellation
        { calls := [tickerCall, limitCall], result := Except.error e }
    | Except.ok o1 =>
        match c.stopOrderResp with
        | Except.ok o2 =>
            { calls := [tickerCall, limitCall, stopCall], result := Except.ok [o1, o2] }
        | Except.error e =>
            if e.kind = PyExcKind.api then
              -- `orders == [limit_order]`: one cancellation attempt,
              -- outcome logged either way, then the original error re-raised
              { calls := [tickerCall, limitCall, stopCall,
                  ExchangeCall.cancelOrder (pyUpper symbol) o1.orderId],
                result := Except.error e }
            else
              { calls := [tickerCall, limitCall, stopCall], result := Except.error e }

/-- `get_open_orders` of `advanced/oco.py` (the same function appears in
`limit_orders.py` and `advanced/stop_limit.py`): `symbol=None` and the
falsy `""` query without a symbol filter, any other symbol is
uppercased; a failure is caught and degraded to `[]`. -/
def get_open_orders (resp : Except PyExc (List Order)) (symbol : Option String) :
    List ExchangeCall × List Order :=
  let call := match symbol with
    | some s => if s = "" then ExchangeCall.openOrders none
        else ExchangeCall.openOrders (some (pyUpper s))
    | none => ExchangeCall.openOrders none
  ([call], match resp with
    | Except.ok orders => orders
    | Except.error _ => [])

end BinanceBot.Oco

namespace BinanceBot.StopLimit

/-- Responses for the requests `place_stop_limit_order` can issue. -/
structure SLClient where
  tickerResp : Except PyExc ℚ
  createResp : Except PyExc Order

/-- `place_stop_limit_order` of `advanced/stop_limit.py`: ticker lookup
(failures swallowed), reference diffs (re-`float()`ing `stop_price`
then `limit_price` when the price is truthy), then one `STOP` order
with `price=limit_price`, `stopPrice=stop_price`; every create-order
exception is logged and re-raised. -/
def place_stop_limit_order (c : SLClient) (symbol side : String)
    (quantity stop_price limit_price : PyNumStr) :
    List ExchangeCall × Except PyExc Order :=
  let tickerCall := ExchangeCall.ticker (pyUpper symbol)
  let diffRaises := priceTruthy (tickerPrice c.tickerResp)
    && (stop_price.val.isNone || limit_price.val.isNone)
  if diffRaises then ([tickerCall], Except.error valueError)
  else
    ([tickerCall, ExchangeCall.createOrder (pyUpper symbol) (pyUpper side) "STOP"
        quantity.raw (some limit_price.raw) (some stop_price.raw) (some "GTC")],
      c.createResp)

end BinanceBot.StopLimit

namespace BinanceBot.MarketOrders

/-- `place_market_order` of `sanket_binance_bot/src/market_orders.py`:
one `MARKET` order with uppercased symbol and side, no price and no
time-in-force; every exception is logged and re-raised. -/
def place_market_order (resp : Except PyExc Order) (symbol side quantity : String) :
    List ExchangeCall × Except PyExc Order :=
  ([ExchangeCall.createOrder (pyUpper symbol) (pyUpper side) "MARKET"
      quantity none none none],
    resp)

end BinanceBot.MarketOrders

namespace BinanceBot.LegacyMarket

/-- `place_market_order` of the legacy top-level `src/market_orders.py`:
the symbol and side are passed through verbatim (no `.upper()`), and
any exception is caught and printed, so the function returns `None`
instead of raising. -/
def place_market_order (resp : Except PyExc Order) (symbol side quantity : String) :
    List ExchangeCall × Option Order :=
  ([ExchangeCall.createOrder symbol side "MARKET" quantity none none none],
    match resp with
    | Except.ok o => some o
    | Except.error _ => none)

end BinanceBot.LegacyMarket

namespace BinanceBot.LimitOrders

/-- Responses for every request a run of `limit_orders.py`'s `main` can
issue, in program order: the account snapshot and balance (inside
`get_account_info`), the first open-orders listing, the ticker lookup
and the create-order request (inside `place_limit_order`), and the
final open-orders listing. -/
structure LimitClient where
  accountResp : Except PyExc Unit
  openOrders1Resp : Except PyExc (List Order)
  tickerResp : Except PyExc ℚ
  createResp : Except PyExc Order
  openOrders2Resp : Except PyExc (List Order)

/-- Outcome of one process run: the exit code of the process and the
exchange requests it issued, in order. -/
structure RunResult where
  exitCode : Nat
  calls : List ExchangeCall
deriving DecidableEq

/-- The requests `get_account_info` issues: `futures_account()` and, if
that did not raise, `futures_account_balance()`; any exception is
caught and swallowed. -/
def accountCalls (r : Except PyExc Unit) : List ExchangeCall :=
  match r with
  | Except.ok _ => [ExchangeCall.account, ExchangeCall.accountBalance]
  | Except.error _ => [ExchangeCall.account]

/-- The open-orders request of `get_open_orders` for a symbol argument
(`if symbol:` — the empty string is falsy). -/
def openOrdersCall (symbol : String) : ExchangeCall :=
  if symbol = "" then ExchangeCall.openOrders none
  else ExchangeCall.openOrders (some (pyUpper symbol))

/-- `main` of `sanket_binance_bot/src/limit_orders.py`, for a run whose
argument count check already passed, with `symbol side quantity price`
the four command-line arguments.

Source order: `validate_inputs` (a non-empty error list exits with
code 1 before any client exists); the credential check (an empty key or
secret exits with code 1); `get_account_info`; `get_open_orders`;
`place_limit_order` (ticker lookup with swallowed failure, reference
diff that re-`float()`s `price` when the fetched price is truthy, the
create-order request); on success a final `get_open_orders` and exit
code 0.  Any exception escaping the `try` block is logged and the
process exits with code 1. -/
def limit_main (api_key api_secret : String) (c : LimitClient)
    (symbol side : String) (quantity price : PyNumStr) : RunResult :=
  let errors := validate_inputs symbol side quantity.val price.val
  if errors ≠ [] then { exitCode := 1, calls := [] }
  else if api_key = "" ∨ api_secret = "" then { exitCode := 1, calls := [] }
  else
    let pre := accountCalls c.accountResp ++ [openOrdersCall symbol]
    let tickerCall := ExchangeCall.ticker (pyUpper symbol)
    let diffRaises := priceTruthy (tickerPrice c.tickerResp) && price.val.isNone
    if diffRaises then { exitCode := 1, calls := pre ++ [tickerCall] }
    else
      let createCall := ExchangeCall.createOrder (pyUpper symbol) (pyUpper side)
        "LIMIT" quantity.raw (some price.raw) none (some "GTC")
      match c.createResp with
      | Except.error _ => { exitCode := 1, calls := pre ++ [tickerCall, createCall] }
      | Except.ok _ =>
          { exitCode := 0, calls := pre ++ [tickerCall, createCall, openOrdersCall symbol] }

end BinanceBot.LimitOrders

namespace BinanceBot

example : Oco.validate_inputs "BTCUSDT" "SELL" (some 1)
    (some 30000) (some 28500) (some 28000) = [] := by decide

example : Oco.validate_inputs "BTCUSDT" "SELL" (some 1)
    (some 28000) (some 28500) (some 28000) = [sellOcoLimitErr] := by decide

example : LimitOrders.validate_inputs "BTCUSDT" "BUY" (some (-1)) none
    = [qtyPosErr, priceNumErr] := by decide

/-! ## Membership lemmas for the validators -/

theorem mem_ite_singleton {α : Type _} {c : Prop} [Decidable c] {a x : α} :
    a ∈ (if c then [x] else ([] : List α)) ↔ c ∧ a = x := by
  split <;> simp_all

theorem mem_ite_nil_singleton {α : Type _} {c : Prop} [Decidable c] {a x : α} :
    a ∈ (if c then ([] : List α) else [x]) ↔ ¬c ∧ a = x := by
  split <;> simp_all

theorem mem_checkSymbol {e symbol : String} :
    e ∈ checkSymbol symbol ↔ (symbol = "" ∨ symbol.length < 6) ∧ e = symbolErr := by
  simp [checkSymbol, mem_ite_singleton]

theorem mem_checkSide {e side : String} :
    e ∈ checkSide side
      ↔ ¬(pyUpper side = "BUY" ∨ pyUpper side = "SELL") ∧ e = sideErr := by
  simp [checkSide, mem_ite_nil_singleton]

theorem mem_numFieldErrors {v : Option ℚ} {posMsg numMsg e : String} :
    e ∈ numFieldErrors v posMsg numMsg
      ↔ ((∃ q, v = some q ∧ q ≤ 0) ∧ e = posMsg) ∨ (v = none ∧ e = numMsg) := by
  cases v <;> simp [numFieldErrors, mem_ite_singleton]

theorem mem_oco_relationshipErrors {e side : String}
    {limit_price stop_price stop_limit_price : Option ℚ} :
    e ∈ Oco.relationshipErrors side limit_price stop_price stop_limit_price
      ↔ ∃ l s sl, limit_price = some l ∧ stop_price = some s
          ∧ stop_limit_price = some sl
          ∧ ((pyUpper side = "SELL"
                ∧ ((l ≤ s ∧ e = sellOcoLimitErr) ∨ (s < sl ∧ e = sellOcoStopLimitErr)))
             ∨ (pyUpper side ≠ "SELL"
                ∧ ((s ≤ l ∧ e = buyOcoLimitErr) ∨ (sl < s ∧ e = buyOcoStopLimitErr)))) := by
  by_cases hS : pyUpper side = "SELL" <;>
    cases limit_price <;> cases stop_price <;> cases stop_limit_price <;>
      simp [Oco.relationshipErrors, hS, mem_ite_singleton]

theorem mem_stopLimit_relationshipErrors {e side : String} {sp lp : Option ℚ} :
    e ∈ StopLimit.relationshipErrors side sp lp
      ↔ ∃ s l, sp = some s ∧ lp = some l ∧ s < l
          ∧ ((pyUpper side = "SELL" ∧ e = sellStopRelErr)
             ∨ (pyUpper side ≠ "SELL" ∧ e = buyStopRelErr)) := by
  by_cases hS : pyUpper side = "SELL" <;> cases sp <;> cases lp <;>
    simp [StopLimit.relationshipErrors, hS, mem_ite_singleton]

theorem numFieldErrors_eq_nil {v : Option ℚ} {posMsg numMsg : String} :
    numFieldErrors v posMsg numMsg = [] ↔ ∃ q, v = some q ∧ 0 < q := by
  cases v with
  | none => simp [numFieldErrors]
  | some q =>
      by_cases hq : q ≤ 0
      · simp [numFieldErrors, hq, not_lt.mpr hq]
      · simp [numFieldErrors, hq, not_le.mp hq]

theorem stopLimit_relationshipErrors_eq_nil {side : String} {s l : ℚ} :
    StopLimit.relationshipErrors side (some s) (some l) = [] ↔ ¬s < l := by
  by_cases hS : pyUpper side = "SELL" <;> by_cases hsl : s < l <;>
    simp [StopLimit.relationshipErrors, hS, hsl]

end BinanceBot

namespace BinanceBot

/--
C2: For a SELL OCO request whose six fields all pass the individual
field checks, `validate_inputs` of `advanced/oco.py` returns exactly
the SELL relationship errors: one when `limitPrice ≤ stopPrice`, one
when `stopLimitPrice > stopPrice`, and nothing otherwise.
-/
theorem oco_sell_relationship_validation
    (symbol side : String) (q l s sl : ℚ)
    (hsym : 6 ≤ symbol.length) (hside : pyUpper side = "SELL")
    (hq : 0 < q) (hl : 0 < l) (hs : 0 < s) (hsl : 0 < sl) :
    Oco.validate_inputs symbol side (some q) (some l) (some s) (some sl)
      = (if l ≤ s then [sellOcoLimitErr] else [])
        ++ (if s < sl then [sellOcoStopLimitErr] else []) := by
  have hsym' : ¬(symbol = "" ∨ symbol.length < 6) := by
    rintro (rfl | hlt)
    · exact absurd hsym (by decide)
    · omega
  simp [Oco.validate_inputs, Oco.relationshipErrors, checkSymbol, checkSide,
    numFieldErrors, hside, hsym', not_le.mpr hq, not_le.mpr hl, not_le.mpr hs,
    not_le.mpr hsl]

/--
Witness for C2, at the spec's concrete inputs: SELL OCO with
limitPrice=30000, stopPrice=28500, stopLimitPrice=28000 passes
validation, and SELL OCO with limitPrice=28000, stopPrice=28500 fails.
-/
theorem oco_sell_relationship_validation_witness :
    Oco.validate_inputs "BTCUSDT" "SELL" (some 1) (some 30000) (some 28500) (some 28000) = []
      ∧ Oco.validate_inputs "BTCUSDT" "SELL" (some 1) (some 28000) (some 28500) (some 28000)
        ≠ [] := by
  constructor
  · rw [oco_sell_relationship_validation "BTCUSDT" "SELL" 1 30000 28500 28000
      (by decide) (by decide) (by decide) (by decide) (by decide) (by decide)]
    norm_num
  · rw [oco_sell_relationship_validation "BTCUSDT" "SELL" 1 28000 28500 28000
      (by decide) (by decide) (by decide) (by decide) (by decide) (by decide)]
    norm_num

/--
C3: For a BUY OCO request whose six fields all pass the individual
field checks, `validate_inputs` of `advanced/oco.py` returns exactly
the BUY relationship errors: one when `limitPrice ≥ stopPrice`, one
when `stopLimitPrice < stopPrice`, and nothing otherwise.
-/
theorem oco_buy_relationship_validation
    (symbol side : String) (q l s sl : ℚ)
    (hsym : 6 ≤ symbol.length) (hside : pyUpper side = "BUY")
    (hq : 0 < q) (hl : 0 < l) (hs : 0 < s) (hsl : 0 < sl) :
    Oco.validate_inputs symbol side (some q) (some l) (some s) (some sl)
      = (if s ≤ l then [buyOcoLimitErr] else [])
        ++ (if sl < s then [buyOcoStopLimitErr] else []) := by
  have hsym' : ¬(symbol = "" ∨ symbol.length < 6) := by
    rintro (rfl | hlt)
    · exact absurd hsym (by decide)
    · omega
  simp [Oco.validate_inputs, Oco.relationshipErrors, checkSymbol, checkSide,
    numFieldErrors, hside, hsym', not_le.mpr hq, not_le.mpr hl, not_le.mpr hs,
    not_le.mpr hsl]

/--
Witness for C3, at the spec's concrete inputs: BUY OCO with
limitPrice=28000, stopPrice=28500, stopLimitPrice=29000 passes
validation, and with the limit/stop relationship swapped it fails.
-/
theorem oco_buy_relationship_validation_witness :
    Oco.validate_inputs "BTCUSDT" "BUY" (some 1) (some 28000) (some 28500) (some 29000) = []
      ∧ Oco.validate_inputs "BTCUSDT" "BUY" (some 1) (some 29000) (some 28500) (some 29000)
        ≠ [] := by
  constructor
  · rw [oco_buy_relationship_validation "BTCUSDT" "BUY" 1 28000 28500 29000
      (by decide) (by decide) (by decide) (by decide) (by decide) (by decide)]
    norm_num
  · rw [oco_buy_relationship_validation "BTCUSDT" "BUY" 1 29000 28500 29000
      (by decide) (by decide) (by decide) (by decide) (by decide) (by decide)]
    norm_num

/--
C4: `validate_inputs` of `limit_orders.py` checks every field and
returns the complete ordered error list rather than stopping at the
first violation: each field's errors appear independently of the other
fields, and the spec's example — valid symbol and side, quantity "-1",
price "abc" — yields exactly the two expected errors, in order.
-/
theorem limit_validate_collects_all_errors :
    (∀ (symbol side : String) (q p : Option ℚ),
      (qtyPosErr ∈ LimitOrders.validate_inputs symbol side q p
        ↔ ∃ x, q = some x ∧ x ≤ 0)
      ∧ (qtyNumErr ∈ LimitOrders.validate_inputs symbol side q p ↔ q = none)
      ∧ (pricePosErr ∈ LimitOrders.validate_inputs symbol side q p
        ↔ ∃ x, p = some x ∧ x ≤ 0)
      ∧ (priceNumErr ∈ LimitOrders.validate_inputs symbol side q p ↔ p = none))
    ∧ LimitOrders.validate_inputs "BTCUSDT" "BUY" (some (-1)) none
        = [qtyPosErr, priceNumErr]
    ∧ (LimitOrders.validate_inputs "BTCUSDT" "BUY" (some (-1)) none).length = 2 := by
  refine ⟨fun symbol side q p => ?_, by decide, by decide⟩
  refine ⟨?_, ?_, ?_, ?_⟩ <;>
    simp [LimitOrders.validate_inputs, List.mem_append, mem_checkSymbol,
      mem_checkSide, mem_numFieldErrors, qtyPosErr, qtyNumErr, pricePosErr,
      priceNumErr, symbolErr, sideErr]

/--
C6: In `validate_inputs` of `advanced/oco.py`, each of the four numeric
fields contributes its "must be greater than 0" error exactly when it
parses to a non-positive value and its "must be a valid number" error
exactly when it does not parse; a field that parses to a strictly
positive value contributes neither.
-/
theorem oco_numeric_field_validation
    (symbol side : String) (q l s sl : Option ℚ) :
    (qtyPosErr ∈ Oco.validate_inputs symbol side q l s sl
      ↔ ∃ x, q = some x ∧ x ≤ 0)
    ∧ (qtyNumErr ∈ Oco.validate_inputs symbol side q l s sl ↔ q = none)
    ∧ (limitPosErr ∈ Oco.validate_inputs symbol side q l s sl
      ↔ ∃ x, l = some x ∧ x ≤ 0)
    ∧ (limitNumErr ∈ Oco.validate_inputs symbol side q l s sl ↔ l = none)
    ∧ (stopPosErr ∈ Oco.validate_inputs symbol side q l s sl
      ↔ ∃ x, s = some x ∧ x ≤ 0)
    ∧ (stopNumErr ∈ Oco.validate_inputs symbol side q l s sl ↔ s = none)
    ∧ (stopLimitPosErr ∈ Oco.validate_inputs symbol side q l s sl
      ↔ ∃ x, sl = some x ∧ x ≤ 0)
    ∧ (stopLimitNumErr ∈ Oco.validate_inputs symbol side q l s sl ↔ sl = none) := by
  refine ⟨?_, ?_, ?_, ?_, ?_, ?_, ?_, ?_⟩ <;>
    simp [Oco.validate_inputs, List.mem_append, mem_checkSymbol, mem_checkSide,
      mem_numFieldErrors, mem_oco_relationshipErrors, qtyPosErr, qtyNumErr,
      limitPosErr, limitNumErr, stopPosErr, stopNumErr, stopLimitPosErr,
      stopLimitNumErr, symbolErr, sideErr, sellOcoLimitErr, sellOcoStopLimitErr,
      buyOcoLimitErr, buyOcoStopLimitErr]

/--
C8: `validate_inputs` of `advanced/stop_limit.py` enforces, for SELL
and for BUY alike, that the stop price is at least the limit price: it
emits the side's relationship error exactly when stopPrice < limitPrice,
and an input it accepts with no errors has parsed prices with
stopPrice ≥ limitPrice.
-/
theorem stop_limit_stop_ge_limit_rule
    (symbol side : String) (q sp lp : Option ℚ) (s l : ℚ)
    (hsp : sp = some s) (hlp : lp = some l) :
    (pyUpper side = "SELL" →
      (sellStopRelErr ∈ StopLimit.validate_inputs symbol side q sp lp ↔ s < l))
    ∧ (pyUpper side = "BUY" →
      (buyStopRelErr ∈ StopLimit.validate_inputs symbol side q sp lp ↔ s < l))
    ∧ (StopLimit.validate_inputs symbol side q sp lp = [] → l ≤ s) := by
  subst hsp hlp
  refine ⟨fun hS => ?_, fun hB => ?_, fun hnil => ?_⟩
  · simp [StopLimit.validate_inputs, List.mem_append, mem_checkSymbol,
      mem_checkSide, mem_numFieldErrors, mem_stopLimit_relationshipErrors, hS,
      sellStopRelErr, buyStopRelErr, symbolErr, sideErr, qtyPosErr, qtyNumErr,
      stopPosErr, stopNumErr, limitPosErr, limitNumErr]
  · simp [StopLimit.validate_inputs, List.mem_append, mem_checkSymbol,
      mem_checkSide, mem_numFieldErrors, mem_stopLimit_relationshipErrors, hB,
      sellStopRelErr, buyStopRelErr, symbolErr, sideErr, qtyPosErr, qtyNumErr,
      stopPosErr, stopNumErr, limitPosErr, limitNumErr]
  · simp only [StopLimit.validate_inputs, List.append_eq_nil] at hnil
    exact not_lt.mp (stopLimit_relationshipErrors_eq_nil.mp hnil.2)

/--
Witness for C8: the accepted example `stop-limit BTCUSDT SELL 0.01
28500 28000` produces no relationship error, and swapping the prices
(stop 28000 < limit 28500) makes the SELL relationship error appear.
-/
theorem stop_limit_stop_ge_limit_rule_witness :
    sellStopRelErr
      ∈ StopLimit.validate_inputs "BTCUSDT" "SELL" (some 1) (some 28000) (some 28500)
    ∧ sellStopRelErr
      ∉ StopLimit.validate_inputs "BTCUSDT" "SELL" (some 1) (some 28500) (some 28000) := by
  constructor
  · exact ((stop_limit_stop_ge_limit_rule "BTCUSDT" "SELL" (some 1) (some 28000)
      (some 28500) 28000 28500 rfl rfl).1 (by decide)).mpr (by norm_num)
  · intro hmem
    have h := ((stop_limit_stop_ge_limit_rule "BTCUSDT" "SELL" (some 1) (some 28500)
      (some 28000) 28500 28000 rfl rfl).1 (by decide)).mp hmem
    norm_num at h

/--
C9: In `validate_inputs` of `advanced/oco.py`, any side that is not
case-insensitively BUY or SELL yields the side error and is dispatched
to the BUY branch of the relationship checks: the BUY relationship
errors appear according to the BUY rules and the SELL relationship
errors never appear.
-/
theorem oco_unknown_side_uses_buy_rules
    (symbol side : String) (q : Option ℚ) (l s sl : ℚ)
    (hb : pyUpper side ≠ "BUY") (hs : pyUpper side ≠ "SELL") :
    sideErr ∈ Oco.validate_inputs symbol side q (some l) (some s) (some sl)
    ∧ sellOcoLimitErr ∉ Oco.validate_inputs symbol side q (some l) (some s) (some sl)
    ∧ sellOcoStopLimitErr ∉ Oco.validate_inputs symbol side q (some l) (some s) (some sl)
    ∧ (buyOcoLimitErr ∈ Oco.validate_inputs symbol side q (some l) (some s) (some sl)
        ↔ s ≤ l)
    ∧ (buyOcoStopLimitErr ∈ Oco.validate_inputs symbol side q (some l) (some s) (some sl)
        ↔ sl < s) := by
  refine ⟨?_, ?_, ?_, ?_, ?_⟩ <;>
    simp [Oco.validate_inputs, List.mem_append, mem_checkSymbol, mem_checkSide,
      mem_numFieldErrors, mem_oco_relationshipErrors, hb, hs, qtyPosErr,
      qtyNumErr, limitPosErr, limitNumErr, stopPosErr, stopNumErr,
      stopLimitPosErr, stopLimitNumErr, symbolErr, sideErr, sellOcoLimitErr,
      sellOcoStopLimitErr, buyOcoLimitErr, buyOcoStopLimitErr]

/--
Witness for C9: side "HOLD" (not BUY/SELL) on an OCO input with
limit=2, stop=3, stopLimit=1 yields the side error and the BUY
stop-limit relationship error, and neither SELL relationship error.
-/
theorem oco_unknown_side_uses_buy_rules_witness :
    sideErr ∈ Oco.validate_inputs "BTCUSDT" "HOLD" (some 1) (some 2) (some 3) (some 1)
    ∧ sellOcoLimitErr
      ∉ Oco.validate_inputs "BTCUSDT" "HOLD" (some 1) (some 2) (some 3) (some 1)
    ∧ sellOcoStopLimitErr
      ∉ Oco.validate_inputs "BTCUSDT" "HOLD" (some 1) (some 2) (some 3) (some 1)
    ∧ buyOcoStopLimitErr
      ∈ Oco.validate_inputs "BTCUSDT" "HOLD" (some 1) (some 2) (some 3) (some 1) := by
  obtain ⟨h1, h2, h3, _, h5⟩ := oco_unknown_side_uses_buy_rules "BTCUSDT" "HOLD"
    (some 1) 2 3 1 (by decide) (by decide)
  exact ⟨h1, h2, h3, h5.mpr (by norm_num)⟩

/-! ## Concrete clients used by the counterexamples and witnesses -/

/-- A run of `place_oco_order` in which the LIMIT leg is accepted and
the STOP leg fails with a `BinanceOrderException`. -/
def ocoOrderErrClient : Oco.OcoClient :=
  { tickerResp := Except.ok 29000
    limitOrderResp := Except.ok ⟨201, "30000", ""⟩
    stopOrderResp := Except.error ⟨PyExcKind.order, "rejected"⟩
    cancelResp := fun _ => Except.ok () }

/-- A run of `place_oco_order` in which the LIMIT leg is accepted, the
STOP leg fails with a `BinanceAPIException`, and the cancellation of
the first leg itself fails. -/
def ocoApiErrClient : Oco.OcoClient :=
  { tickerResp := Except.ok 29000
    limitOrderResp := Except.ok ⟨301, "30000", ""⟩
    stopOrderResp := Except.error ⟨PyExcKind.api, "bad stop"⟩
    cancelResp := fun _ => Except.error ⟨PyExcKind.api, "cancel failed"⟩ }

/-- A client whose ticker request fails and whose order requests
succeed. -/
def failingTickerClient : Oco.OcoClient :=
  { tickerResp := Except.error ⟨PyExcKind.other, "timeout"⟩
    limitOrderResp := Except.ok ⟨101, "30000", ""⟩
    stopOrderResp := Except.ok ⟨102, "28000", "28500"⟩
    cancelResp := fun _ => Except.ok () }

/-- The oco example arguments `0.01 30000 28500 28000`, as raw strings
paired with their `float()` values. -/
def qtyArg : PyNumStr := ⟨"0.01", some (1 / 100)⟩

def limitArg : PyNumStr := ⟨"30000", some 30000⟩

def stopArg : PyNumStr := ⟨"28500", some 28500⟩

def stopLimitArg : PyNumStr := ⟨"28000", some 28000⟩

/--
Counterexample for C1: with the LIMIT leg placed successfully and the
STOP leg failing with a `BinanceOrderException`, `place_oco_order`
issues the two create-order requests, re-raises the second-leg error —
and makes zero cancellation attempts, not one.
-/
theorem oco_second_leg_failure_no_cancel_counterexample :
    (Oco.place_oco_order ocoOrderErrClient "BTCUSDT" "SELL" qtyArg limitArg
        stopArg stopLimitArg).result = Except.error ⟨PyExcKind.order, "rejected"⟩
    ∧ ExchangeCall.createOrder "BTCUSDT" "SELL" "LIMIT" "0.01" (some "30000")
        none (some "GTC")
      ∈ (Oco.place_oco_order ocoOrderErrClient "BTCUSDT" "SELL" qtyArg limitArg
        stopArg stopLimitArg).calls
    ∧ ((Oco.place_oco_order ocoOrderErrClient "BTCUSDT" "SELL" qtyArg limitArg
        stopArg stopLimitArg).calls.countP ExchangeCall.isCancel) = 0 := by
  refine ⟨by decide, by decide, by decide⟩

/--
C1 (amended): when the LIMIT leg is placed successfully and the STOP
leg fails with a `BinanceAPIException`, `place_oco_order` makes exactly
one cancellation attempt, against the first leg's order id; the outcome
of that cancellation does not change the run (its failure is only
logged, never retried); and the original second-leg error is re-raised
to the caller.
-/
theorem oco_api_failure_cancels_first_leg_once
    (c : Oco.OcoClient) (symbol side : String)
    (q lp sp slp : PyNumStr) (o1 : Order) (e : PyExc)
    (hd : Oco.diffBlockRaises c lp sp slp = false)
    (h1 : c.limitOrderResp = Except.ok o1)
    (h2 : c.stopOrderResp = Except.error e)
    (hk : e.kind = PyExcKind.api) :
    ((Oco.place_oco_order c symbol side q lp sp slp).calls.countP
        ExchangeCall.isCancel = 1)
    ∧ ExchangeCall.cancelOrder (pyUpper symbol) o1.orderId
        ∈ (Oco.place_oco_order c symbol side q lp sp slp).calls
    ∧ (Oco.place_oco_order c symbol side q lp sp slp).result = Except.error e
    ∧ ∀ g, Oco.place_oco_order { c with cancelResp := g } symbol side q lp sp slp
        = Oco.place_oco_order c symbol side q lp sp slp := by
  refine ⟨?_, ?_, ?_, fun g => rfl⟩ <;>
    simp [Oco.place_oco_order, hd, h1, h2, hk, List.countP_cons, List.countP_nil,
      ExchangeCall.isCancel]

/--
Witness for C1: a concrete client whose STOP leg fails with a
`BinanceAPIException` and whose cancellation request itself fails —
the run still makes exactly one cancellation attempt, against order id
301, and re-raises the second-leg error.
-/
theorem oco_api_failure_cancels_first_leg_once_witness :
    ((Oco.place_oco_order ocoApiErrClient "BTCUSDT" "SELL" qtyArg limitArg
        stopArg stopLimitArg).calls.countP ExchangeCall.isCancel = 1)
    ∧ ExchangeCall.cancelOrder (pyUpper "BTCUSDT") 301
        ∈ (Oco.place_oco_order ocoApiErrClient "BTCUSDT" "SELL" qtyArg limitArg
        stopArg stopLimitArg).calls
    ∧ (Oco.place_oco_order ocoApiErrClient "BTCUSDT" "SELL" qtyArg limitArg
        stopArg stopLimitArg).result = Except.error ⟨PyExcKind.api, "bad stop"⟩ := by
  obtain ⟨h1, h2, h3, _⟩ := oco_api_failure_cancels_first_leg_once ocoApiErrClient
    "BTCUSDT" "SELL" qtyArg limitArg stopArg stopLimitArg ⟨301, "30000", ""⟩
    ⟨PyExcKind.api, "bad stop"⟩ (by decide) rfl rfl rfl
  exact ⟨h1, h2, h3⟩

/--
C7: `get_current_price` swallows any failure of the ticker request and
returns `None`, and a run of `place_oco_order` whose ticker request
fails still proceeds to issue the LIMIT-leg create-order request —
price context is never required for order placement.
-/
theorem ticker_failure_returns_none
    (c : Oco.OcoClient) (symbol side : String)
    (q lp sp slp : PyNumStr) (e : PyExc)
    (h : c.tickerResp = Except.error e) :
    (Oco.get_current_price c symbol).2 = none
    ∧ ExchangeCall.createOrder (pyUpper symbol) (pyUpper side) "LIMIT"
        q.raw (some lp.raw) none (some "GTC")
      ∈ (Oco.place_oco_order c symbol side q lp sp slp).calls := by
  have hd : Oco.diffBlockRaises c lp sp slp = false := by
    simp [Oco.diffBlockRaises, tickerPrice, h, priceTruthy]
  refine ⟨by simp [Oco.get_current_price, tickerPrice, h], ?_⟩
  cases hLim : c.limitOrderResp with
  | error e1 => simp [Oco.place_oco_order, hd, hLim]
  | ok o1 =>
      cases hStop : c.stopOrderResp with
      | ok o2 => simp [Oco.place_oco_order, hd, hLim, hStop]
      | error e2 =>
          by_cases hk : e2.kind = PyExcKind.api <;>
            simp [Oco.place_oco_order, hd, hLim, hStop, hk]

/--
Witness for C7: a concrete client whose ticker request times out —
`get_current_price` returns `None` and the LIMIT leg is still sent.
-/
theorem ticker_failure_returns_none_witness :
    (Oco.get_current_price failingTickerClient "BTCUSDT").2 = none
    ∧ ExchangeCall.createOrder (pyUpper "BTCUSDT") (pyUpper "SELL") "LIMIT"
        "0.01" (some "30000") none (some "GTC")
      ∈ (Oco.place_oco_order failingTickerClient "BTCUSDT" "SELL" qtyArg limitArg
        stopArg stopLimitArg).calls :=
  ticker_failure_returns_none failingTickerClient "BTCUSDT" "SELL" qtyArg
    limitArg stopArg stopLimitArg ⟨PyExcKind.other, "timeout"⟩ rfl

/-- A stub exchange that accepts every request, for runs of the limit
CLI. -/
def stubLimitClient : LimitOrders.LimitClient :=
  { accountResp := Except.ok ()
    openOrders1Resp := Except.ok []
    tickerResp := Except.ok 29000
    createResp := Except.ok ⟨1, "29000", ""⟩
    openOrders2Resp := Except.ok [] }

/--
C5: Whenever `validate_inputs` returns a non-empty error list, the
`limit_orders.py` CLI run exits with code 1 and issues no exchange
request at all — regardless of the credentials and of how the exchange
would have answered.
-/
theorem limit_validation_failure_no_exchange_calls
    (api_key api_secret : String) (c : LimitOrders.LimitClient)
    (symbol side : String) (quantity price : PyNumStr)
    (h : LimitOrders.validate_inputs symbol side quantity.val price.val ≠ []) :
    LimitOrders.limit_main api_key api_secret c symbol side quantity price
      = { exitCode := 1, calls := [] } := by
  simp [LimitOrders.limit_main, h]

/--
Witness for C5: the spec's end-to-end example — a limit command with
quantity "0" — exits with code 1 and no request reaches the stub
exchange.
-/
theorem limit_validation_failure_no_exchange_calls_witness :
    LimitOrders.limit_main "key" "secret" stubLimitClient "BTCUSDT" "SELL"
      ⟨"0", some 0⟩ ⟨"29000", some 29000⟩ = { exitCode := 1, calls := [] } :=
  limit_validation_failure_no_exchange_calls "key" "secret" stubLimitClient
    "BTCUSDT" "SELL" ⟨"0", some 0⟩ ⟨"29000", some 29000⟩ (by decide)

/--
Counterexample for C10: `place_market_order` of the legacy top-level
`src/market_orders.py` passes the symbol through verbatim, so two
invocations that differ only in the letter case of the symbol issue
different exchange requests.
-/
theorem legacy_market_symbol_case_counterexample :
    (LegacyMarket.place_market_order (Except.ok ⟨1, "", ""⟩) "btcusdt" "BUY" "0.01").1
      ≠ (LegacyMarket.place_market_order (Except.ok ⟨1, "", ""⟩) "BTCUSDT" "BUY" "0.01").1
    := by decide

/--
C10 (amended): in the `sanket_binance_bot` modules, every
order-placement, open-orders, and ticker call sends the uppercased
symbol, so the placement functions, the price lookup and the
open-orders listing issue identical requests for symbols that differ
only in letter case; the legacy top-level scripts send the symbol
verbatim.
-/
theorem sanket_calls_use_uppercased_symbol
    (s t : String) (h : pyUpper s = pyUpper t) (hs : s ≠ "") (ht : t ≠ "")
    (side quantity : String) (resp : Except PyExc Order)
    (slc : StopLimit.SLClient) (oc : Oco.OcoClient)
    (q lp sp slp : PyNumStr) (oresp : Except PyExc (List Order)) :
    MarketOrders.place_market_order resp s side quantity
      = MarketOrders.place_market_order resp t side quantity
    ∧ StopLimit.place_stop_limit_order slc s side q sp lp
      = StopLimit.place_stop_limit_order slc t side q sp lp
    ∧ Oco.place_oco_order oc s side q lp sp slp
      = Oco.place_oco_order oc t side q lp sp slp
    ∧ Oco.get_current_price oc s = Oco.get_current_price oc t
    ∧ Oco.get_open_orders oresp (some s) = Oco.get_open_orders oresp (some t)
    ∧ (MarketOrders.place_market_order resp s side quantity).1
        = [ExchangeCall.createOrder (pyUpper s) (pyUpper side) "MARKET" quantity
            none none none]
    ∧ (LegacyMarket.place_market_order resp s side quantity).1
        = [ExchangeCall.createOrder s side "MARKET" quantity none none none] := by
  refine ⟨?_, ?_, ?_, ?_, ?_, rfl, rfl⟩ <;>
    simp [MarketOrders.place_market_order, StopLimit.place_stop_limit_order,
      Oco.place_oco_order, Oco.get_current_price, Oco.get_open_orders, h, hs, ht]

/--
Witness for C10 (amended): "btcusdt" and "BTCUSDT" differ only in
case, and the market and OCO placement functions issue identical
requests for them.
-/
theorem sanket_calls_use_uppercased_symbol_witness :
    MarketOrders.place_market_order (Except.ok ⟨1, "", ""⟩) "btcusdt" "BUY" "0.01"
      = MarketOrders.place_market_order (Except.ok ⟨1, "", ""⟩) "BTCUSDT" "BUY" "0.01"
    ∧ Oco.place_oco_order ocoApiErrClient "btcusdt" "BUY" qtyArg limitArg stopArg
        stopLimitArg
      = Oco.place_oco_order ocoApiErrClient "BTCUSDT" "BUY" qtyArg limitArg stopArg
        stopLimitArg := by
  obtain ⟨h1, _, h3, _⟩ := sanket_calls_use_uppercased_symbol "btcusdt" "BTCUSDT"
    (by decide) (by decide) (by decide) "BUY" "0.01" (Except.ok ⟨1, "", ""⟩)
    ⟨Except.ok 29000, Except.ok ⟨1, "", ""⟩⟩ ocoApiErrClient qtyArg limitArg stopArg
    stopLimitArg (Except.ok [])
  exact ⟨h1, h3⟩

end BinanceBot
